import Mathlib

/-!
Verification of the Stripe webhook reconciliation engine
(supabase/functions/stripe-webhook/index.ts).

The development shallowly embeds the webhook handler: JavaScript numbers
are modelled as rationals together with the non-finite values (NaN and the
two infinities), strings as Lean strings, nullable values as Option, the
durable store (event-lock ledger, transaction table, attendance table,
challenge-session links) as explicit lists threaded through the handler,
and the two external effects that can fail independently of the store —
the lock-insert outcome and the Stripe fee lookup — as parameters.
The model starts after Stripe signature verification succeeds, which is
where the reconciliation logic of the source begins.
-/

namespace StripeWebhook

/-- A JavaScript number: a finite rational, NaN, or an infinity.
Metadata values arrive as strings in Stripe; the model carries the value
that the Number conversion in computeEconomics yields. -/
inductive JsNum where
  | num (q : ℚ)
  | nan
  | inf
  | ninf
deriving DecidableEq

/-- Number.isFinite: true exactly on finite numbers. -/
def JsNum.isFinite : JsNum → Bool
  | JsNum.num _ => true
  | _ => false

/-- JavaScript falsiness of a nullable string: null or undefined or the
empty string. -/
def falsyOpt : Option String → Bool
  | none => true
  | some s => s = ""

/-- Transition guard from the source (isAllowedTransition): mirrors the
fallthrough structure of the JavaScript, including the truthiness check on
prev (null, undefined and the empty string all pass unconditionally). -/
def isAllowedTransition (prev : Option String) (next : String) : Bool :=
  match prev with
  | none => true
  | some p =>
    if p = "" then true
    else if p = next then true
    else if p = "pending" ∧ (next = "succeeded" ∨ next = "failed" ∨ next = "canceled" ∨ next = "refunded") then true
    else if p = "succeeded" then decide (next = "refunded")
    else if p = "failed" ∨ p = "canceled" then false
    else if p = "refunded" then false
    else false

/-- The five transaction statuses of the data model. -/
def stateList : List String := ["pending", "succeeded", "failed", "canceled", "refunded"]

/-- Modelled from the spec: the edge set the specification describes for
allowedTransition — self-transitions, pending to succeeded or failed or
canceled, and succeeded to refunded. Written from the words of the spec so
it can be compared with the source function isAllowedTransition. -/
def specAllowedEdges (prev next : String) : Bool :=
  decide (prev = next
    ∨ (prev = "pending" ∧ (next = "succeeded" ∨ next = "failed" ∨ next = "canceled"))
    ∨ (prev = "succeeded" ∧ next = "refunded"))

/-- The edge set the source function actually encodes on the five
statuses: the spec edge set plus the edge pending to refunded. -/
def codeAllowedEdges (prev next : String) : Bool :=
  decide (prev = next
    ∨ (prev = "pending" ∧ (next = "succeeded" ∨ next = "failed" ∨ next = "canceled" ∨ next = "refunded"))
    ∨ (prev = "succeeded" ∧ next = "refunded"))

/-- Raw Stripe metadata as it reaches parseMeta: every field may be
absent. -/
structure RawMeta where
  kind : Option String
  target_id : Option String
  buyer_id : Option String
  creator_id : Option String
  currency : Option String
  price_cents : Option JsNum
deriving DecidableEq

/-- Validated checkout metadata (the CheckoutMeta type of the source). -/
structure CheckoutMeta where
  kind : String
  target_id : String
  buyer_id : String
  creator_id : Option String
  currency : String
  price_cents : JsNum
deriving DecidableEq

/-- parseMeta from the source: field-presence validation in source order
(kind, target_id, buyer_id, currency, price_cents). The first four use
JavaScript falsiness; price_cents is only checked against undefined and
null. -/
def parseMeta (m : RawMeta) : Except String CheckoutMeta :=
  if falsyOpt m.kind ∨ (m.kind ≠ some "session" ∧ m.kind ≠ some "challenge") then
    Except.error "metadata.kind missing or invalid"
  else if falsyOpt m.target_id then Except.error "metadata.target_id missing"
  else if falsyOpt m.buyer_id then Except.error "metadata.buyer_id missing"
  else if falsyOpt m.currency then Except.error "metadata.currency missing"
  else
    match m.price_cents with
    | none => Except.error "metadata.price_cents missing"
    | some pc =>
      Except.ok { kind := m.kind.getD "", target_id := m.target_id.getD "",
                  buyer_id := m.buyer_id.getD "", creator_id := m.creator_id,
                  currency := m.currency.getD "", price_cents := pc }

/-- The split computed by computeEconomics, with the field names of the
source's return object. -/
structure Econ where
  grossCents : ℚ
  fixedFeeCents : ℚ
  percentFeeCts : ℚ
  creatorCut : ℚ
  platformCut : ℚ
  afterStripe : ℚ
deriving DecidableEq

/-- computeEconomics from the source: rejects a price that is not a finite
non-negative number, then splits the gross amount. Math.floor is the floor
into the integers and the literal 0.80 is the rational 4/5. -/
def computeEconomics (md : CheckoutMeta) (totalStripeFeeCents : ℚ) : Except String Econ :=
  match md.price_cents with
  | JsNum.num grossCents =>
    if grossCents < 0 then Except.error "metadata.price_cents invalid"
    else
      let fixedFeeCents : ℚ := 30
      let percentFeeCts : ℚ := max (totalStripeFeeCents - fixedFeeCents) 0
      let creatorCut : ℚ := (⌊grossCents * (4/5)⌋ : ℤ)
      Except.ok { grossCents := grossCents, fixedFeeCents := fixedFeeCents,
                  percentFeeCts := percentFeeCts, creatorCut := creatorCut,
                  platformCut := grossCents - creatorCut,
                  afterStripe := grossCents - (fixedFeeCents + percentFeeCts) }
  | _ => Except.error "metadata.price_cents invalid"

/-- The price is a finite non-negative number (the exact success condition
of computeEconomics). -/
def finiteNonneg : JsNum → Prop
  | JsNum.num q => 0 ≤ q
  | _ => False

/-- A transaction row (the TxRow type of the source). -/
structure TxRow where
  buyer_id : String
  creator_id : Option String
  session_id : Option String
  challenge_id : Option String
  provider : String
  provider_payment_id : String
  type : String
  status : String
  currency : String
  amount_gross_cents : ℚ
  processing_fee_fixed_cents : ℚ
  processing_fee_percent_cents : ℚ
  platform_cut_cents : ℚ
  creator_cut_cents : ℚ
  amount_after_stripe_cents : ℚ
deriving DecidableEq

/-- The durable store: the webhook_event_lock ledger keyed by
(provider, provider_event_id), the app_transaction table as (row id, row)
pairs, the app_attendance table as (session_id, user_id) pairs, and the
app_challenge_session links as (challenge_id, session_id) pairs. -/
structure DBState where
  eventLocks : List (String × String)
  transactions : List (String × TxRow)
  attendance : List (String × String)
  challengeSessions : List (String × String)
deriving DecidableEq

/-- getOrCreateEventLock from the source, as a function of the lock-insert
outcome (none = the insert succeeded, some c = it failed with error code
c): code 23505 is classified as deduped, any other code is rethrown. -/
def getOrCreateEventLock (insertError : Option String) : Except String Bool :=
  match insertError with
  | none => Except.ok false
  | some c => if c = "23505" then Except.ok true else Except.error c

/-- Outcome of the lock insert against the store: a duplicate key yields
the uniqueness-violation code 23505; otherwise the insert fails only if
the environment injects a fault code. -/
def lockInsertResult (db : DBState) (eventId : String) (fault : Option String) : Option String :=
  if ("stripe", eventId) ∈ db.eventLocks then some "23505" else fault

/-- fetchExistingTx from the source: the transaction row matching the
business key (provider = stripe, provider_payment_id). -/
def fetchExistingTx (txs : List (String × TxRow)) (piId : String) : Option (String × TxRow) :=
  txs.find? fun t => decide (t.2.provider = "stripe" ∧ t.2.provider_payment_id = piId)

/-- insertTx from the source: a new row under a store-generated id. -/
def insertTx (txs : List (String × TxRow)) (freshId : String) (row : TxRow) : List (String × TxRow) :=
  txs ++ [(freshId, row)]

/-- updateTx from the source: replace the fields of the row with the given
id. -/
def updateTx (txs : List (String × TxRow)) (id : String) (row : TxRow) : List (String × TxRow) :=
  txs.map fun t => if t.1 = id then (id, row) else t

/-- Idempotent attendance upsert on the (session_id, user_id) key. -/
def upsertAttendance (att : List (String × String)) (sid uid : String) : List (String × String) :=
  if (sid, uid) ∈ att then att else att ++ [(sid, uid)]

/-- grantEntitlements from the source: a session purchase upserts one
attendance row; a challenge purchase expands the challenge to its linked
sessions and upserts one attendance row per session. -/
def grantEntitlements (db : DBState) (md : CheckoutMeta) : DBState :=
  if md.kind = "session" then
    { db with attendance := upsertAttendance db.attendance md.target_id md.buyer_id }
  else
    let links := (db.challengeSessions.filter fun l => decide (l.1 = md.target_id)).map fun l => l.2
    { db with attendance := links.foldl (fun a sid => upsertAttendance a sid md.buyer_id) db.attendance }

/-- A Stripe checkout session object as the handler reads it. -/
structure StripeSession where
  mode : String
  payment_status : String
  metadata : RawMeta
  payment_intent : Option String
deriving DecidableEq

/-- An inbound, signature-verified Stripe event. -/
structure InEvent where
  id : String
  type : String
  session : StripeSession
deriving DecidableEq

/-- The JSON response of the handler: HTTP status plus the flags the
bodies carry. -/
structure Response where
  status : Nat
  ok : Bool
  deduped : Bool
  ignored : Bool
  processed : Bool
deriving DecidableEq

/-- An error response (the json bodies with a code field). -/
def errResp (code : Nat) : Response :=
  { status := code, ok := false, deduped := false, ignored := false, processed := false }

/-- The 200 deduped response. -/
def okDeduped : Response :=
  { status := 200, ok := true, deduped := true, ignored := false, processed := false }

/-- The 200 ignored response. -/
def okIgnored : Response :=
  { status := 200, ok := true, deduped := false, ignored := true, processed := false }

/-- The 200 processed response. -/
def okProcessed : Response :=
  { status := 200, ok := true, deduped := false, ignored := false, processed := true }

/-- The handler body after signature verification, in source order: event
lock, event-type switch, paid-mode check, metadata validation, payment
intent presence, fee lookup (feeResult, none = the Stripe call failed),
economics, transaction upsert behind the transition guard, entitlement
fan-out. lockFault injects a non-duplicate failure of the lock insert;
freshId is the row id the store assigns on insert. -/
def handleEvent (db : DBState) (ev : InEvent) (lockFault : Option String)
    (feeResult : Option ℚ) (freshId : String) : DBState × Response :=
  match getOrCreateEventLock (lockInsertResult db ev.id lockFault) with
  | Except.error _ => (db, errResp 500)
  | Except.ok true => (db, okDeduped)
  | Except.ok false =>
    let db1 : DBState := { db with eventLocks := ("stripe", ev.id) :: db.eventLocks }
    if ev.type = "checkout.session.completed" then
      if ev.session.mode ≠ "payment" ∨ ev.session.payment_status ≠ "paid" then
        (db1, okIgnored)
      else
        match parseMeta ev.session.metadata with
        | Except.error _ => (db1, errResp 422)
        | Except.ok md =>
          if falsyOpt ev.session.payment_intent then (db1, errResp 422)
          else
            let piId := ev.session.payment_intent.getD ""
            match feeResult with
            | none => (db1, errResp 502)
            | some totalFeeCents =>
              match computeEconomics md totalFeeCents with
              | Except.error _ => (db1, errResp 422)
              | Except.ok math =>
                let baseRow : TxRow :=
                  { buyer_id := md.buyer_id, creator_id := md.creator_id,
                    session_id := if md.kind = "session" then some md.target_id else none,
                    challenge_id := if md.kind = "challenge" then some md.target_id else none,
                    provider := "stripe", provider_payment_id := piId,
                    type := if md.kind = "session" then "ticket" else "bundle",
                    status := "succeeded", currency := md.currency,
                    amount_gross_cents := math.grossCents,
                    processing_fee_fixed_cents := math.fixedFeeCents,
                    processing_fee_percent_cents := math.percentFeeCts,
                    platform_cut_cents := math.platformCut,
                    creator_cut_cents := math.creatorCut,
                    amount_after_stripe_cents := math.afterStripe }
                match fetchExistingTx db1.transactions piId with
                | none =>
                  let db2 : DBState := { db1 with transactions := insertTx db1.transactions freshId baseRow }
                  (grantEntitlements db2 md, okProcessed)
                | some existing =>
                  if isAllowedTransition (some existing.2.status) "succeeded" then
                    let db2 : DBState := { db1 with transactions := updateTx db1.transactions existing.1 baseRow }
                    (grantEntitlements db2 md, okProcessed)
                  else
                    (db1, okIgnored)
    else (db1, okIgnored)

/-- Concrete checkout metadata with a 1000-cent price. -/
def mdSession1000 : CheckoutMeta :=
  { kind := "session", target_id := "s1", buyer_id := "u1", creator_id := none,
    currency := "CHF", price_cents := JsNum.num 1000 }

/-- Concrete checkout metadata with the non-integral price 10.5 cents. -/
def mdSessionHalf : CheckoutMeta :=
  { kind := "session", target_id := "s1", buyer_id := "u1", creator_id := none,
    currency := "CHF", price_cents := JsNum.num 10.5 }

/-- Concrete checkout metadata with a zero price. -/
def mdSessionZero : CheckoutMeta :=
  { kind := "session", target_id := "s1", buyer_id := "u1", creator_id := none,
    currency := "CHF", price_cents := JsNum.num 0 }

/-- A transaction row already recorded as refunded for payment pi_1. -/
def rowRefunded : TxRow :=
  { buyer_id := "u1", creator_id := none, session_id := some "s1", challenge_id := none,
    provider := "stripe", provider_payment_id := "pi_1", type := "ticket",
    status := "refunded", currency := "CHF",
    amount_gross_cents := 0, processing_fee_fixed_cents := 0,
    processing_fee_percent_cents := 0, platform_cut_cents := 0,
    creator_cut_cents := 0, amount_after_stripe_cents := 0 }

/-- A store whose ledger already contains event evt_1. -/
def dbLocked : DBState :=
  { eventLocks := [("stripe", "evt_1")], transactions := [], attendance := [],
    challengeSessions := [] }

/-- An empty store. -/
def dbEmpty : DBState :=
  { eventLocks := [], transactions := [], attendance := [], challengeSessions := [] }

/-- A store holding only the refunded transaction for pi_1. -/
def dbWithRefunded : DBState :=
  { eventLocks := [], transactions := [("tx1", rowRefunded)], attendance := [],
    challengeSessions := [] }

/-- Well-formed raw metadata for a 1000-cent session purchase. -/
def rawMetaGood : RawMeta :=
  { kind := some "session", target_id := some "s1", buyer_id := some "u1",
    creator_id := none, currency := some "CHF", price_cents := some (JsNum.num 1000) }

/-- Raw metadata lacking buyer_id. -/
def rawMetaNoBuyer : RawMeta :=
  { kind := some "session", target_id := some "s1", buyer_id := none,
    creator_id := none, currency := some "CHF", price_cents := some (JsNum.num 1000) }

/-- A paid one-time checkout session with good metadata for payment pi_1. -/
def sessGood : StripeSession :=
  { mode := "payment", payment_status := "paid", metadata := rawMetaGood,
    payment_intent := some "pi_1" }

/-- A paid one-time checkout session whose metadata lacks buyer_id. -/
def sessNoBuyer : StripeSession :=
  { mode := "payment", payment_status := "paid", metadata := rawMetaNoBuyer,
    payment_intent := some "pi_1" }

/-- An event with the already-admitted id evt_1. -/
def evLocked : InEvent :=
  { id := "evt_1", type := "checkout.session.completed", session := sessGood }

/-- A fresh, well-formed checkout-completed event. -/
def evGood : InEvent :=
  { id := "evt_2", type := "checkout.session.completed", session := sessGood }

/-- A fresh checkout-completed event whose metadata lacks buyer_id. -/
def evNoBuyer : InEvent :=
  { id := "evt_3", type := "checkout.session.completed", session := sessNoBuyer }

/-- The split computeEconomics yields for a 1000-cent price and a reported
58-cent total fee. -/
def econ1000at58 : Econ :=
  { grossCents := 1000, fixedFeeCents := 30, percentFeeCts := 28,
    creatorCut := 800, platformCut := 200, afterStripe := 942 }

lemma handleEvent_of_mem (db : DBState) (ev : InEvent) (lockFault : Option String)
    (feeResult : Option ℚ) (freshId : String)
    (h : ("stripe", ev.id) ∈ db.eventLocks) :
    handleEvent db ev lockFault feeResult freshId = (db, okDeduped) := by
  simp [handleEvent, lockInsertResult, getOrCreateEventLock, h]

/-- C1: an inbound event whose (provider, event_id) pair is already in the
event ledger is answered 200 with deduped true, and the store — including
the transaction and attendance tables — is left exactly as it was. -/
theorem C1_redelivery_deduped_no_writes (db : DBState) (ev : InEvent)
    (lockFault : Option String) (feeResult : Option ℚ) (freshId : String)
    (h : ("stripe", ev.id) ∈ db.eventLocks) :
    handleEvent db ev lockFault feeResult freshId = (db, okDeduped) ∧
    (handleEvent db ev lockFault feeResult freshId).1.transactions = db.transactions ∧
    (handleEvent db ev lockFault feeResult freshId).1.attendance = db.attendance ∧
    (handleEvent db ev lockFault feeResult freshId).2.status = 200 ∧
    (handleEvent db ev lockFault feeResult freshId).2.deduped = true := by
  have e := handleEvent_of_mem db ev lockFault feeResult freshId h
  rw [e]
  exact ⟨rfl, rfl, rfl, rfl, rfl⟩

/-- Witness for C1 at a concrete already-admitted event. -/
theorem C1_witness :
    ("stripe", evLocked.id) ∈ dbLocked.eventLocks ∧
    handleEvent dbLocked evLocked none none "t1" = (dbLocked, okDeduped) :=
  ⟨by decide,
   (C1_redelivery_deduped_no_writes dbLocked evLocked none none "t1" (by decide)).1⟩

/-- Counterexample for C2: the source guard admits the transition pending
to refunded, which the edge set described by the specification excludes. -/
theorem C2_counterexample :
    isAllowedTransition (some "pending") "refunded" = true ∧
    specAllowedEdges "pending" "refunded" = false := by decide

/-- C2 amended: on the five statuses, the guard returns true exactly on
self-transitions, the edges from pending to succeeded, failed, canceled or
refunded, and the edge from succeeded to refunded. -/
theorem C2_transition_edge_set :
    ∀ p ∈ stateList, ∀ n ∈ stateList,
      isAllowedTransition (some p) n = codeAllowedEdges p n := by decide

/-- Witness for C2 at the pair (pending, refunded). -/
theorem C2_witness :
    "pending" ∈ stateList ∧ "refunded" ∈ stateList ∧
    isAllowedTransition (some "pending") "refunded" = codeAllowedEdges "pending" "refunded" :=
  ⟨by decide, by decide,
   C2_transition_edge_set "pending" (by decide) "refunded" (by decide)⟩

/-- C3: for every finite non-negative price and every reported fee, the
split satisfies platform cut plus creator cut equals gross, and net equals
gross minus the fixed and percentage fee components. -/
theorem C3_split_identities (md : CheckoutMeta) (g fee : ℚ)
    (hp : md.price_cents = JsNum.num g) (h0 : 0 ≤ g) :
    ∃ e, computeEconomics md fee = Except.ok e ∧
      e.platformCut + e.creatorCut = e.grossCents ∧
      e.afterStripe = e.grossCents - (e.fixedFeeCents + e.percentFeeCts) := by
  refine ⟨{ grossCents := g, fixedFeeCents := 30, percentFeeCts := max (fee - 30) 0,
            creatorCut := ((⌊g * (4/5)⌋ : ℤ) : ℚ),
            platformCut := g - ((⌊g * (4/5)⌋ : ℤ) : ℚ),
            afterStripe := g - (30 + max (fee - 30) 0) }, ?_, ?_, ?_⟩
  · simp [computeEconomics, hp, not_lt.mpr h0]
  · ring
  · rfl

/-- Witness for C3 at a 1000-cent price and a 58-cent fee. -/
theorem C3_witness :
    mdSession1000.price_cents = JsNum.num 1000 ∧ (0 : ℚ) ≤ 1000 ∧
    (∃ e, computeEconomics mdSession1000 58 = Except.ok e ∧
      e.platformCut + e.creatorCut = e.grossCents ∧
      e.afterStripe = e.grossCents - (e.fixedFeeCents + e.percentFeeCts)) :=
  ⟨rfl, by norm_num, C3_split_identities mdSession1000 1000 58 rfl (by norm_num)⟩

/-- C4: the split follows the stated policy — the percentage component is
the reported fee less the 30-cent fixed component floored at zero, the
creator cut is the floor of four fifths of the gross, the platform cut is
the remainder — and the 1000-cent, 58-cent-fee example yields percentage
fee 28, creator cut 800, platform cut 200 and net 942. -/
theorem C4_policy_and_example :
    (∀ (md : CheckoutMeta) (g fee : ℚ), md.price_cents = JsNum.num g → 0 ≤ g →
      ∃ e, computeEconomics md fee = Except.ok e ∧
        e.grossCents = g ∧
        e.fixedFeeCents = 30 ∧
        e.percentFeeCts = max (fee - 30) 0 ∧
        e.creatorCut = ((⌊g * (4/5)⌋ : ℤ) : ℚ) ∧
        e.platformCut = g - e.creatorCut) ∧
    computeEconomics mdSession1000 58 = Except.ok econ1000at58 := by
  constructor
  · intro md g fee hp h0
    refine ⟨{ grossCents := g, fixedFeeCents := 30, percentFeeCts := max (fee - 30) 0,
              creatorCut := ((⌊g * (4/5)⌋ : ℤ) : ℚ),
              platformCut := g - ((⌊g * (4/5)⌋ : ℤ) : ℚ),
              afterStripe := g - (30 + max (fee - 30) 0) }, ?_, rfl, rfl, rfl, rfl, rfl⟩
    simp [computeEconomics, hp, not_lt.mpr h0]
  · norm_num [computeEconomics, mdSession1000, econ1000at58]

/-- Witness for C4 at a 1000-cent price and a 58-cent fee. -/
theorem C4_witness :
    mdSession1000.price_cents = JsNum.num 1000 ∧ (0 : ℚ) ≤ 1000 ∧
    (∃ e, computeEconomics mdSession1000 58 = Except.ok e ∧
      e.grossCents = 1000 ∧
      e.fixedFeeCents = 30 ∧
      e.percentFeeCts = max ((58 : ℚ) - 30) 0 ∧
      e.creatorCut = ((⌊(1000 : ℚ) * (4/5)⌋ : ℤ) : ℚ) ∧
      e.platformCut = 1000 - e.creatorCut) :=
  ⟨rfl, by norm_num, C4_policy_and_example.1 mdSession1000 1000 58 rfl (by norm_num)⟩

/-- Counterexample for C5: the price 10.5 is finite, non-negative and not
an integer, yet computeEconomics returns a split instead of failing — the
source never checks integrality. -/
theorem C5_counterexample :
    mdSessionHalf.price_cents = JsNum.num 10.5 ∧
    ((⌊(10.5 : ℚ)⌋ : ℚ) ≠ (10.5 : ℚ)) ∧
    (computeEconomics mdSessionHalf 0).isOk = true := by
  refine ⟨rfl, by norm_num, ?_⟩
  norm_num [mdSessionHalf, computeEconomics, Except.isOk, Except.toBool]

/-- C5 amended: computeEconomics succeeds exactly when the price is a
finite non-negative number; it fails on NaN, the infinities and negative
prices, but does not require integrality. -/
theorem C5_accepts_iff_finite_nonneg (md : CheckoutMeta) (fee : ℚ) :
    (∃ e, computeEconomics md fee = Except.ok e) ↔ finiteNonneg md.price_cents := by
  cases hp : md.price_cents with
  | num q =>
    by_cases hq : q < 0
    · simp [computeEconomics, hp, hq, finiteNonneg, not_le.mpr hq]
    · simp [computeEconomics, hp, hq, finiteNonneg, not_lt.mp hq]
  | nan => simp [computeEconomics, hp, finiteNonneg]
  | inf => simp [computeEconomics, hp, finiteNonneg]
  | ninf => simp [computeEconomics, hp, finiteNonneg]

/-- C9: a zero price with a 58-cent reported fee yields a strictly
negative net while both split identities still hold — the calculator
places no lower bound on the net amount. -/
theorem C9_net_can_be_negative :
    ∃ e, computeEconomics mdSessionZero 58 = Except.ok e ∧ e.afterStripe < 0 ∧
      e.platformCut + e.creatorCut = e.grossCents ∧
      e.afterStripe = e.grossCents - (e.fixedFeeCents + e.percentFeeCts) := by
  refine ⟨{ grossCents := 0, fixedFeeCents := 30, percentFeeCts := 28, creatorCut := 0,
            platformCut := 0, afterStripe := -58 }, ?_, by norm_num, by norm_num, by norm_num⟩
  norm_num [computeEconomics, mdSessionZero]

/-- C10: with no prior status the guard accepts every next status, so a
first-seen payment may be recorded directly in any status, the terminal
ones included. -/
theorem C10_null_prev_unrestricted (next : String) :
    isAllowedTransition none next = true := rfl

/-- C6: ledger admission treats exactly the uniqueness-violation code
23505 as already-processed; the lock insert succeeding means admitted, any
other failure code is rethrown, and the handler then answers 500 with the
store untouched so the provider retries. -/
theorem C6_lock_failure_discrimination (err : Option String) :
    (getOrCreateEventLock err = Except.ok true ↔ err = some "23505") ∧
    (∀ c : String, err = some c → c ≠ "23505" → getOrCreateEventLock err = Except.error c) ∧
    (∀ (db : DBState) (ev : InEvent) (c : String) (feeResult : Option ℚ) (freshId : String),
      ("stripe", ev.id) ∉ db.eventLocks → c ≠ "23505" →
      handleEvent db ev (some c) feeResult freshId = (db, errResp 500)) := by
  refine ⟨?_, ?_, ?_⟩
  · cases err with
    | none => simp [getOrCreateEventLock]
    | some c =>
      by_cases hc : c = "23505"
      · simp [getOrCreateEventLock, hc]
      · simp [getOrCreateEventLock, hc]
  · intro c hc hne
    subst hc
    simp [getOrCreateEventLock, hne]
  · intro db ev c feeResult freshId hmem hne
    simp [handleEvent, lockInsertResult, getOrCreateEventLock, hmem, hne]

/-- Witness for C6 at the non-duplicate failure code boom. -/
theorem C6_witness :
    (some "boom" = some "boom") ∧ ("boom" : String) ≠ "23505" ∧
    getOrCreateEventLock (some "boom") = Except.error "boom" ∧
    (("stripe", evGood.id) ∉ dbEmpty.eventLocks ∧
      handleEvent dbEmpty evGood (some "boom") none "t1" = (dbEmpty, errResp 500)) :=
  ⟨rfl, by decide,
   (C6_lock_failure_discrimination (some "boom")).2.1 "boom" rfl (by decide),
   by decide,
   (C6_lock_failure_discrimination (some "boom")).2.2 dbEmpty evGood "boom" none "t1"
     (by decide) (by decide)⟩

/-- C7: when a transaction already exists for the business key and the
move from its current status to succeeded is disallowed, the handler
answers 200 ok with ignored true and leaves the transaction and attendance
tables untouched; the only write is the ledger admission itself. -/
theorem C7_disallowed_transition_ignored (db : DBState) (ev : InEvent)
    (fee : ℚ) (freshId : String) (md : CheckoutMeta) (math : Econ)
    (ex : String × TxRow)
    (h1 : ("stripe", ev.id) ∉ db.eventLocks)
    (h2 : ev.type = "checkout.session.completed")
    (h3 : ev.session.mode = "payment")
    (h4 : ev.session.payment_status = "paid")
    (h5 : parseMeta ev.session.metadata = Except.ok md)
    (h6 : falsyOpt ev.session.payment_intent = false)
    (h7 : computeEconomics md fee = Except.ok math)
    (h8 : fetchExistingTx db.transactions (ev.session.payment_intent.getD "") = some ex)
    (h9 : isAllowedTransition (some ex.2.status) "succeeded" = false) :
    handleEvent db ev none (some fee) freshId =
      ({ db with eventLocks := ("stripe", ev.id) :: db.eventLocks }, okIgnored) ∧
    (handleEvent db ev none (some fee) freshId).1.transactions = db.transactions ∧
    (handleEvent db ev none (some fee) freshId).1.attendance = db.attendance ∧
    (handleEvent db ev none (some fee) freshId).2 = okIgnored := by
  have e : handleEvent db ev none (some fee) freshId =
      ({ db with eventLocks := ("stripe", ev.id) :: db.eventLocks }, okIgnored) := by
    simp [handleEvent, lockInsertResult, getOrCreateEventLock, h1, h2, h3, h4, h5,
      h6, h7, h8, h9]
  rw [e]
  exact ⟨rfl, rfl, rfl, rfl⟩

/-- Witness for C7: a stale succeeded delivery arriving after the
transaction was recorded refunded. -/
theorem C7_witness :
    (("stripe", evGood.id) ∉ dbWithRefunded.eventLocks) ∧
    evGood.type = "checkout.session.completed" ∧
    evGood.session.mode = "payment" ∧
    evGood.session.payment_status = "paid" ∧
    parseMeta evGood.session.metadata = Except.ok mdSession1000 ∧
    falsyOpt evGood.session.payment_intent = false ∧
    computeEconomics mdSession1000 58 = Except.ok econ1000at58 ∧
    fetchExistingTx dbWithRefunded.transactions (evGood.session.payment_intent.getD "") =
      some ("tx1", rowRefunded) ∧
    isAllowedTransition (some ("tx1", rowRefunded).2.status) "succeeded" = false ∧
    handleEvent dbWithRefunded evGood none (some 58) "tx2" =
      ({ dbWithRefunded with
          eventLocks := ("stripe", evGood.id) :: dbWithRefunded.eventLocks }, okIgnored) :=
  ⟨by decide, rfl, rfl, rfl, rfl, rfl,
   by norm_num [computeEconomics, mdSession1000, econ1000at58],
   by decide, by decide,
   (C7_disallowed_transition_ignored dbWithRefunded evGood 58 "tx2" mdSession1000
     econ1000at58 ("tx1", rowRefunded) (by decide) rfl rfl rfl rfl rfl
     (by norm_num [computeEconomics, mdSession1000, econ1000at58]) (by decide)
     (by decide)).1⟩

/-- C8: a correctly signed paid checkout event with invalid metadata is
answered 422, the ledger keeps the admission record, no transaction or
attendance write happens, and any redelivery of the event is deduped. -/
theorem C8_bad_metadata_422_ledger_retained (db : DBState) (ev : InEvent)
    (feeResult : Option ℚ) (freshId : String) (msg : String)
    (h1 : ("stripe", ev.id) ∉ db.eventLocks)
    (h2 : ev.type = "checkout.session.completed")
    (h3 : ev.session.mode = "payment")
    (h4 : ev.session.payment_status = "paid")
    (h5 : parseMeta ev.session.metadata = Except.error msg) :
    handleEvent db ev none feeResult freshId =
      ({ db with eventLocks := ("stripe", ev.id) :: db.eventLocks }, errResp 422) ∧
    (handleEvent db ev none feeResult freshId).1.transactions = db.transactions ∧
    (handleEvent db ev none feeResult freshId).1.attendance = db.attendance ∧
    ("stripe", ev.id) ∈ (handleEvent db ev none feeResult freshId).1.eventLocks ∧
    (∀ (lockFault2 : Option String) (feeResult2 : Option ℚ) (freshId2 : String),
      handleEvent (handleEvent db ev none feeResult freshId).1 ev lockFault2 feeResult2 freshId2 =
        ((handleEvent db ev none feeResult freshId).1, okDeduped)) := by
  have e : handleEvent db ev none feeResult freshId =
      ({ db with eventLocks := ("stripe", ev.id) :: db.eventLocks }, errResp 422) := by
    simp [handleEvent, lockInsertResult, getOrCreateEventLock, h1, h2, h3, h4, h5]
  rw [e]
  refine ⟨rfl, rfl, rfl, ?_, ?_⟩
  · exact List.mem_cons_self _ _
  · intro lockFault2 feeResult2 freshId2
    exact handleEvent_of_mem _ ev lockFault2 feeResult2 freshId2 (List.mem_cons_self _ _)

/-- Witness for C8: metadata with buyer_id missing. -/
theorem C8_witness :
    (("stripe", evNoBuyer.id) ∉ dbEmpty.eventLocks) ∧
    evNoBuyer.type = "checkout.session.completed" ∧
    evNoBuyer.session.mode = "payment" ∧
    evNoBuyer.session.payment_status = "paid" ∧
    parseMeta evNoBuyer.session.metadata = Except.error "metadata.buyer_id missing" ∧
    handleEvent dbEmpty evNoBuyer none none "t1" =
      ({ dbEmpty with
          eventLocks := ("stripe", evNoBuyer.id) :: dbEmpty.eventLocks }, errResp 422) :=
  ⟨by decide, rfl, rfl, rfl, rfl,
   (C8_bad_metadata_422_ledger_retained dbEmpty evNoBuyer none "t1"
     "metadata.buyer_id missing" (by decide) rfl rfl rfl rfl).1⟩

end StripeWebhook
